import Mathlib

/-!
# Verification of the XOpt argument scanner (`src/xopt.c`)

Shallow embedding of the command-line argument scanner in `src/xopt.c`:
`_xopt_get_size`, the short-cluster expansion loop of `_xopt_parse_arg`,
the argument loop of `xopt_parse`, and the byte accounting of
`_xopt_assert_increment`.  Strings are modelled as `List Char` (the C
code never reads past the NUL terminator except where noted), the
argument vector as `List (List Char)`, and machine allocation sizes as
plain `Nat` byte counts.

Two collaborator functions are declared but have no body under `src/`
(`_xopt_get_arg`, `_xopt_set`); following the specification they are
modelled as a short-identifier table lookup and as an opaque
value-setting sink whose invocations are recorded in order.
-/

namespace XOpt

/-- Behavior flags of a context.  The numeric `XOPT_CTX_*` bit values live in
`xopt.h`, which is not under `src/`; the scanner in `src/xopt.c` only ever
tests each bit independently, so the flag word is modelled as a record of
independent booleans (one per flag listed in the specification). -/
structure XoptFlags where
  /-- `XOPT_CTX_KEEPFIRST` (tested at xopt.c:96): do not skip `argv[0]`. -/
  keepfirst : Bool := false
  /-- `XOPT_CTX_POSIXMEHARDER` (xopt.c:124): no options after positionals. -/
  posixmeharder : Bool := false
  /-- `XOPT_CTX_NOCONDENSE` (xopt.c:174): reject multi-character clusters. -/
  nocondense : Bool := false
  /-- `XOPT_CTX_SLOPPYSHORTS` (xopt.c:175,178): rest of cluster is an inline value. -/
  sloppyshorts : Bool := false
  /-- `XOPT_CTX_STRICT` (xopt.c:185,202): unknown identifiers are hard errors. -/
  strict : Bool := false
deriving DecidableEq, Repr

/-- Option record (`xoptOption`).  Its full definition is in `xopt.h`, not under
`src/`; the scanner reads exactly two pieces of it: the short identifier
(`option->shortArg`, xopt.c:218/222) and the requires-a-value result returned
by `_xopt_get_arg` (bound to `requiresArg` at xopt.c:200).  Long names and the
handler metadata are never touched by the code under `src/` (the long-option
branch at xopt.c:232 is empty), so they are omitted. -/
structure xoptOption where
  shortArg : Char
  requiresArg : Bool
deriving DecidableEq, Repr

/-- `struct xoptContext` (xopt.c:36-40).  The `name` field is stored by
`xopt_context` but never read by the scanner, so it is omitted. -/
structure xoptContext where
  options : List xoptOption
  flags : XoptFlags
deriving DecidableEq, Repr

/-- Error descriptions written through `_xopt_set_err`.  Each constructor is
one format string of `src/xopt.c` together with its `%s`/`%c` argument.
Allocation failures (xopt.c:64,90,251) are not modelled: the embedding
assumes every allocation succeeds. -/
inductive XoptErr where
  /-- "short options cannot be combined: %s" (xopt.c:177). -/
  | shortCombined (tok : List Char)
  /-- "invalid argument: -%c" (xopt.c:186 and xopt.c:203). -/
  | invalidArg (c : Char)
  /-- "missing option value: -%c" (xopt.c:217). -/
  | missingValue (c : Char)
  /-- "combined short option requiring value not last: -%c" (xopt.c:221). -/
  | combinedNotLast (c : Char)
  /-- "options cannot be specified after arguments: %s" (xopt.c:125). -/
  | afterPositional (tok : List Char)
deriving DecidableEq, Repr

/-- One invocation of the value-setting sink: the matched option and either a
string value or `none`, the absent-value (NULL) marker. -/
abbrev SinkCall := xoptOption × Option (List Char)

/-- Modelled from the spec: the body of `_xopt_get_arg` is not under `src/`
(only its declaration at xopt.c:50-51 and its call sites).  The specification
says the option table "must expose short-identifier and long-name lookup" and
that strict expansion "look[s] up the matching Option by short identifier";
all call sites in `src/xopt.c` pass a single character (`len` = 1) and a short
size.  Modelled as the first table entry whose short identifier is `c`; the
C function's boolean result is the found option's `requiresArg` field. -/
def _xopt_get_arg (c : Char) (options : List xoptOption) : Option xoptOption :=
  options.find? (fun o => o.shortArg == c)

/-- Modelled from the spec: the body of `_xopt_set` is not under `src/` (only
its declaration at xopt.c:52-53 and its call sites).  The specification
treats it as an opaque value-setting sink "invoked with (destination, matched
option, value-or-absent)" which "may itself signal failure"; the model
records each invocation in order on a trace and never fails. -/
def _xopt_set (trace : List SinkCall) (o : xoptOption) (val : Option (List Char)) :
    List SinkCall :=
  trace ++ [(o, val)]

/-- `_xopt_get_size` (xopt.c:256-264): number of leading `-` characters of the
token, capped at 2, by testing `arg[0]` and then `arg[1]`.  0 = extra, 1 =
short form, 2 = long form.  Reading past the token's end in C hits the NUL
terminator, modelled by the `Char.ofNat 0` default. -/
def _xopt_get_size (arg : List Char) : Nat :=
  if arg.headD (Char.ofNat 0) = '-' then
    if (arg.drop 1).headD (Char.ofNat 0) = '-' then 2 else 1
  else 0

/-- Mutable state threaded through the short-cluster loop: the scan index
`*argi` (advanced when a value is consumed from the argument vector), the
sink-invocation trace (the `data` destination), and `*err`. -/
structure ShortState where
  argi : Nat
  trace : List SinkCall
  err : Option XoptErr
deriving DecidableEq, Repr

/-- The strict-expansion loop `while (length--)` of `_xopt_parse_arg`
(xopt.c:198-228), one recursive step per cluster character.  Faithful
details of the C loop:

* inside the body, `length` has already been decremented, so it equals the
  number of cluster characters after the current one — here `rest.length`;
  the code's "is it the last?" test is literally `length == 1` (xopt.c:210);
* the "is there another argument?" test is literally `argc == *argi + 1`
  (xopt.c:212), and on that branch the value is `argv[++*argi]`;
* the unknown-identifier error prints `arg[0]` after `arg` was already
  incremented at xopt.c:200, i.e. the character after the unknown one, the
  NUL character (code 0) when the unknown character is last (xopt.c:203),
  and the loop `break`s with no further characters processed;
* after a missing-value / not-last error the loop does not break: the
  remaining characters are still processed and may overwrite `*err`. -/
def shortLoop (options : List xoptOption) (strict : Bool) (argv : List (List Char)) :
    List Char → ShortState → ShortState
  | [], s => s
  | c :: rest, s =>
    match _xopt_get_arg c options with
    | none =>
      if strict then { s with err := some (.invalidArg (rest.headD (Char.ofNat 0))) }
      else s
    | some o =>
      if o.requiresArg then
        if rest.length = 1 then
          if argv.length = s.argi + 1 then
            shortLoop options strict argv rest
              { s with argi := s.argi + 1
                       trace := _xopt_set s.trace o (argv.get? (s.argi + 1)) }
          else
            shortLoop options strict argv rest
              { s with err := some (.missingValue o.shortArg) }
        else
          shortLoop options strict argv rest
            { s with err := some (.combinedNotLast o.shortArg) }
      else
        shortLoop options strict argv rest { s with trace := _xopt_set s.trace o none }

/-- Result of `_xopt_parse_arg`: the C function's boolean return (`isExtra`),
the possibly advanced `*argi`, the sink calls made, and `*err`. -/
structure ArgResult where
  isExtra : Bool
  argi : Nat
  trace : List SinkCall
  err : Option XoptErr
deriving DecidableEq, Repr

/-- `_xopt_parse_arg` (xopt.c:151-241).  Classifies `argv[argi]` by its dash
count, then dispatches: short form to the three sub-modes selected at
xopt.c:174-196, long form to the empty `case 2` (xopt.c:232-233), dash-less
tokens to `isExtra = true` (xopt.c:234-237). -/
def _xopt_parse_arg (ctx : xoptContext) (argv : List (List Char)) (argi : Nat) :
    ArgResult :=
  let arg := argv.getD argi []
  let size := _xopt_get_size arg
  let rest := arg.drop size
  if size = 1 then
    if rest.length > 1 ∧ ctx.flags.nocondense ∧ ¬ctx.flags.sloppyshorts then
      ⟨false, argi, [], some (.shortCombined arg)⟩
    else if rest.length > 1 ∧ ctx.flags.sloppyshorts then
      match _xopt_get_arg (rest.headD (Char.ofNat 0)) ctx.options with
      | none =>
        ⟨false, argi, [],
          if ctx.flags.strict then some (.invalidArg (rest.headD (Char.ofNat 0)))
          else none⟩
      | some o => ⟨false, argi, _xopt_set [] o (some (rest.drop 1)), none⟩
    else
      let s := shortLoop ctx.options ctx.flags.strict argv rest ⟨argi, [], none⟩
      ⟨false, s.argi, s.trace, s.err⟩
  else if size = 2 then
    ⟨false, argi, [], none⟩
  else
    ⟨true, argi, [], none⟩

/-- The argument loop of `xopt_parse` (xopt.c:101-130), with explicit fuel so
that the definition is structurally recursive and evaluates by `decide`.
Each iteration consumes one fuel unit and advances `argi` by at least one
(`parse_arg_argi_le` below), so `argv.length + 1` fuel is always enough;
`parseLoop_fuel_invariant` proves the result is fuel-independent from there.
Returns (extras, sink trace, `*err`).  The loop body, in source order:
break on `*err` set by `_xopt_parse_arg` (xopt.c:105); append `argv[argi]`
to the extras on `isExtra` (xopt.c:113-119, allocation assumed to succeed);
otherwise fail when `XOPT_CTX_POSIXMEHARDER` is set and extras have already
been collected (xopt.c:124-128). -/
def parseLoop (ctx : xoptContext) (argv : List (List Char)) :
    Nat → Nat → List (List Char) → List SinkCall →
    List (List Char) × List SinkCall × Option XoptErr
  | 0, _, extras, trace => (extras, trace, none)
  | fuel + 1, argi, extras, trace =>
    if argi < argv.length then
      let r := _xopt_parse_arg ctx argv argi
      if r.err.isSome then
        (extras, trace ++ r.trace, r.err)
      else if r.isExtra then
        parseLoop ctx argv fuel (r.argi + 1) (extras ++ [argv.getD r.argi []])
          (trace ++ r.trace)
      else if ctx.flags.posixmeharder ∧ extras ≠ [] then
        (extras, trace ++ r.trace, some (.afterPositional (argv.getD r.argi [])))
      else
        parseLoop ctx argv fuel (r.argi + 1) extras (trace ++ r.trace)
    else (extras, trace, none)

/-- Outcome of `xopt_parse` (xopt.c:74-141): the returned count, the
`*inextras` output (`none` models the null pointer), the final `*err`, and
the sink-invocation trace accumulated on `data`. -/
structure ParseResult where
  ret : Nat
  extras : Option (List (List Char))
  err : Option XoptErr
  trace : List SinkCall
deriving DecidableEq, Repr

/-- `xopt_parse` (xopt.c:74-141).  Starts at index 1 unless
`XOPT_CTX_KEEPFIRST` is set (xopt.c:96-98), runs the argument loop, then the
`end:` block (xopt.c:132-141): on error the extras buffer is freed,
`*inextras` is nulled and 0 is returned; on success the extras and their
count are handed to the caller.  `argc` is `argv.length` (the C caller
passes the vector's length), and allocation always succeeds in the model. -/
def xopt_parse (ctx : xoptContext) (argv : List (List Char)) : ParseResult :=
  let argi0 := if ctx.flags.keepfirst then 0 else 1
  match parseLoop ctx argv (argv.length + 1) argi0 [] [] with
  | (extras, trace, none) => ⟨extras.length, some extras, none, trace⟩
  | (_, trace, some e) => ⟨0, none, some e, trace⟩

/-- `EXTRAS_INIT` (xopt.c:31). -/
def EXTRAS_INIT : Nat := 10

/-- Size in bytes of one extras element, `sizeof(const char *)` on the LP64
platforms the code targets. -/
def ptrBytes : Nat := 8

/-- `_xopt_assert_increment` (xopt.c:243-254), tracking the allocation size in
bytes.  State is (element capacity `*extrasCapac`, allocated bytes).  When
the count reaches the capacity, the capacity grows by `EXTRAS_INIT` and the
buffer is reallocated — but the size argument of the `realloc` at xopt.c:249
is literally `*extrasCapac`, a plain element count, so the new allocation
holds `*extrasCapac` bytes (the initial `malloc` at xopt.c:86 correctly
requested `sizeof(*extras) * EXTRAS_INIT` bytes). -/
def _xopt_assert_increment (extrasCount extrasCapac allocBytes : Nat) : Nat × Nat :=
  if extrasCount = extrasCapac then
    (extrasCapac + EXTRAS_INIT, extrasCapac + EXTRAS_INIT)
  else (extrasCapac, allocBytes)

/-- Allocation bookkeeping after `n` extras have been appended by the loop at
xopt.c:110-119: (count, element capacity, allocated bytes), starting from the
`malloc(sizeof(*extras) * EXTRAS_INIT)` at xopt.c:86, calling
`_xopt_assert_increment` before each append. -/
def extrasAllocAfter : Nat → Nat × Nat × Nat
  | 0 => (0, EXTRAS_INIT, ptrBytes * EXTRAS_INIT)
  | n + 1 =>
    let (cnt, capac, bytes) := extrasAllocAfter n
    let (capac', bytes') := _xopt_assert_increment cnt capac bytes
    (cnt + 1, capac', bytes')

/-- Shorthand for writing concrete tokens. -/
def str (s : String) : List Char := s.toList

end XOpt

namespace XOpt

/-- The short-cluster loop never moves the scan index backwards. -/
theorem shortLoop_argi_le (options : List xoptOption) (strict : Bool)
    (argv : List (List Char)) (cl : List Char) (s : ShortState) :
    s.argi ≤ (shortLoop options strict argv cl s).argi := by
  induction cl generalizing s with
  | nil => simp [shortLoop]
  | cons c rest ih =>
    simp only [shortLoop]
    cases _xopt_get_arg c options with
    | none =>
      dsimp only
      split <;> simp
    | some o =>
      dsimp only
      split
      · split
        · split
          · exact le_trans (Nat.le_succ _)
              (ih { s with argi := s.argi + 1
                           trace := _xopt_set s.trace o (argv.get? (s.argi + 1)) })
          · exact ih { s with err := some (.missingValue o.shortArg) }
        · exact ih { s with err := some (.combinedNotLast o.shortArg) }
      · exact ih { s with trace := _xopt_set s.trace o none }

/-- `_xopt_parse_arg` never moves the scan index backwards. -/
theorem parse_arg_argi_le (ctx : xoptContext) (argv : List (List Char)) (argi : Nat) :
    argi ≤ (_xopt_parse_arg ctx argv argi).argi := by
  unfold _xopt_parse_arg
  dsimp only
  split
  · split
    · exact le_refl _
    · split
      · split <;> exact le_refl _
      · exact shortLoop_argi_le ctx.options ctx.flags.strict argv _ ⟨argi, [], none⟩
  · split <;> exact le_refl _

/-- Any fuel of at least `argv.length - argi` gives the same `parseLoop`
result: the fuel parameter is bookkeeping for structural recursion, not
behavior. -/
theorem parseLoop_fuel_invariant (ctx : xoptContext) (argv : List (List Char)) :
    ∀ fuel fuel' argi extras trace, argv.length ≤ argi + fuel →
      argv.length ≤ argi + fuel' →
      parseLoop ctx argv fuel argi extras trace = parseLoop ctx argv fuel' argi extras trace := by
  intro fuel
  induction fuel with
  | zero =>
    intro fuel' argi extras trace h h'
    cases fuel' with
    | zero => rfl
    | succ f' =>
      have : ¬argi < argv.length := by omega
      simp [parseLoop, this]
  | succ f ih =>
    intro fuel' argi extras trace h h'
    cases fuel' with
    | zero =>
      have : ¬argi < argv.length := by omega
      simp [parseLoop, this]
    | succ f' =>
      simp only [parseLoop]
      by_cases hlt : argi < argv.length
      · simp only [hlt, if_true]
        have hle := parse_arg_argi_le ctx argv argi
        split
        · rfl
        · split
          · exact ih f' _ _ _ (by omega) (by omega)
          · split
            · rfl
            · exact ih f' _ _ _ (by omega) (by omega)
      · simp [hlt]

end XOpt

namespace XOpt

/-- C1: evaluation of the code on the spec's own example.  With `a`, `b` flag
options, `c` requiring a value, and a following token `"val"`, the claim says
the parse binds `"val"` to `c` and succeeds.  The code invokes the sink for
`a` and `b` with the absent marker, but then fails with "combined short
option requiring value not last: -c" and never binds `"val"`: inside the
`while (length--)` cluster loop, `length` is 0 (not 1) at the last character,
so the xopt.c:210 "is it the last?" test `length == 1` rejects it. -/
theorem cluster_trailing_value_eval :
    xopt_parse ⟨[⟨'a', false⟩, ⟨'b', false⟩, ⟨'c', true⟩], {}⟩
        [str "prog", str "-abc", str "val"] =
      ⟨0, none, some (.combinedNotLast 'c'),
        [(⟨'a', false⟩, none), (⟨'b', false⟩, none)]⟩ := by
  decide

/-- C2: evaluation of the code on a value-requiring short option that is the
last (here: only) character of its cluster.  The claim says a following token
becomes its value, and that with no following token the parse fails with
"missing option value: -o".  The code instead fails with "combined short
option requiring value not last: -o" in both situations: at the last cluster
character the decremented `length` is 0, so the `length == 1` test at
xopt.c:210 sends it to the not-last error; the next-token logic it guards is
itself inverted (`argc == *argi + 1` at xopt.c:212 is true exactly when no
next element exists, and that branch reads `argv[argc]`). -/
theorem last_value_binding_eval :
    xopt_parse ⟨[⟨'o', true⟩], {}⟩ [str "prog", str "-o", str "val"] =
        ⟨0, none, some (.combinedNotLast 'o'), []⟩ ∧
      xopt_parse ⟨[⟨'o', true⟩], {}⟩ [str "prog", str "-o"] =
        ⟨0, none, some (.combinedNotLast 'o'), []⟩ := by
  constructor <;> decide

/-- C3: evaluation of the code on `-abc` where `a` requires a value, with `b`
also requiring a value, `c` a flag, and a following token present.  The claim
says any such parse fails with the CombinedOptionOrdering error.  Processing
`a` does set that error, but the cluster loop does not break on it: at `b`
the decremented `length` is 1, the xopt.c:210 test treats `b` as "last", the
inverted xopt.c:212 test finds `argc != *argi + 1` because a next token
exists, and the error is overwritten with "missing option value: -b", which
is what the parse reports. -/
theorem combined_ordering_eval :
    xopt_parse ⟨[⟨'a', true⟩, ⟨'b', true⟩, ⟨'c', false⟩], {}⟩
        [str "prog", str "-abc", str "val"] =
      ⟨0, none, some (.missingValue 'b'), [(⟨'c', false⟩, none)]⟩ := by
  decide

/-- C5: evaluation of the code on an unknown short identifier `q` in the
cluster `-qa`, with `a` a flag option in the table.  The claim says strict
mode fails with "invalid argument: -q", naming the unknown character.  The
error the code produces names `a` — the character after the unknown one —
because `arg` was already incremented by `arg++` at xopt.c:200 when
`arg[0]` is formatted at xopt.c:203 (for an unknown character in last
position it would name the NUL terminator).  The non-strict half of the
claim holds: expansion stops silently and `a` is never processed. -/
theorem unknown_option_naming_eval :
    xopt_parse ⟨[⟨'a', false⟩], { strict := true }⟩ [str "prog", str "-qa"] =
        ⟨0, none, some (.invalidArg 'a'), []⟩ ∧
      xopt_parse ⟨[⟨'a', false⟩], {}⟩ [str "prog", str "-qa"] =
        ⟨0, some [], none, []⟩ := by
  constructor <;> decide

/-- C8: evaluation of the extras-buffer allocation bookkeeping at the first
growth, reached after 10 positional tokens have been collected and an 11th is
appended.  The claim says growth never drops previously collected extras.
But the `realloc` at xopt.c:249 is passed `*extrasCapac` — the element
count 20 — as its size in bytes: the 80-byte buffer holding 10 pointers is
reallocated down to 20 bytes, too small for the 10 pointers already stored
(`ptrBytes * 10` = 80) and for the 11th write (`ptrBytes * 11` = 88). -/
theorem extras_growth_eval :
    extrasAllocAfter 11 = (11, 20, 20) ∧
      20 < ptrBytes * 10 ∧ ¬(ptrBytes * (10 + 1) ≤ 20) := by
  decide

/-- C9: every parse call yields exactly one of two outcomes, never both: on
success a count equal to the length of the returned extras sequence together
with the extras themselves, or an error description with the extras output
nulled and the count 0, so no partial extras reach the caller (the `end:`
block at xopt.c:132-141, together with the loop's break on the first token
whose parse set `*err`). -/
theorem parse_outcome_exclusive (ctx : xoptContext) (argv : List (List Char)) :
    ((xopt_parse ctx argv).err = none ∧
      ∃ l, (xopt_parse ctx argv).extras = some l ∧ (xopt_parse ctx argv).ret = l.length) ∨
    ((∃ e, (xopt_parse ctx argv).err = some e) ∧
      (xopt_parse ctx argv).extras = none ∧ (xopt_parse ctx argv).ret = 0) := by
  rcases h : parseLoop ctx argv (argv.length + 1)
      (if ctx.flags.keepfirst then 0 else 1) [] [] with ⟨extras, trace, err⟩
  cases err with
  | none =>
    left
    refine ⟨by simp [xopt_parse, h], extras, by simp [xopt_parse, h], by simp [xopt_parse, h]⟩
  | some e =>
    right
    exact ⟨⟨e, by simp [xopt_parse, h]⟩, by simp [xopt_parse, h], by simp [xopt_parse, h]⟩

end XOpt

namespace XOpt

/-- C4: with posix-strict-ordering set, the vector `["prog","file1","-x"]`
(where `x` is a flag option of the table) fails with "options cannot be
specified after arguments" because an extra was already collected when the
option token arrives (xopt.c:120-129); with the flag unset the same input
succeeds with extras `["file1"]` and the option handed to the sink with the
absent-value marker. -/
theorem posix_ordering_after_positional (opts : List xoptOption) (ox : xoptOption)
    (h : _xopt_get_arg 'x' opts = some ox) (hreq : ox.requiresArg = false) :
    xopt_parse ⟨opts, { posixmeharder := true }⟩ [str "prog", str "file1", str "-x"] =
        ⟨0, none, some (.afterPositional (str "-x")), [(ox, none)]⟩ ∧
      xopt_parse ⟨opts, {}⟩ [str "prog", str "file1", str "-x"] =
        ⟨1, some [str "file1"], none, [(ox, none)]⟩ := by
  constructor <;>
    simp [xopt_parse, parseLoop, _xopt_parse_arg, _xopt_get_size, shortLoop,
      _xopt_set, str, h, hreq]

end XOpt

namespace XOpt

/-- C6: a short token whose cluster payload has more than one character, with
no-combine set and sloppy unset, is rejected with "short options cannot be
combined" and no sink invocation (xopt.c:173-177); a parse over a vector
carrying such a token fails the same way with no extras handed out. -/
theorem nocondense_rejects_cluster (opts : List xoptOption) (flags : XoptFlags)
    (c d : Char) (cs : List Char) (argv : List (List Char)) (i : Nat)
    (hnc : flags.nocondense = true) (hsl : flags.sloppyshorts = false)
    (hc : c ≠ '-') (hi : argv.getD i [] = '-' :: c :: d :: cs) :
    _xopt_parse_arg ⟨opts, flags⟩ argv i =
        ⟨false, i, [], some (.shortCombined ('-' :: c :: d :: cs))⟩ ∧
      xopt_parse ⟨opts, flags⟩ [str "prog", '-' :: c :: d :: cs] =
        ⟨0, none, some (.shortCombined ('-' :: c :: d :: cs)), []⟩ := by
  have harg : ∀ (argv' : List (List Char)) (j : Nat),
      argv'.getD j [] = '-' :: c :: d :: cs →
      _xopt_parse_arg ⟨opts, flags⟩ argv' j =
        ⟨false, j, [], some (.shortCombined ('-' :: c :: d :: cs))⟩ := by
    intro argv' j hj
    simp only [List.getD_eq_getElem?_getD] at hj
    simp [_xopt_parse_arg, _xopt_get_size, hj, hc, hnc, hsl]
  refine ⟨harg argv i hi, ?_⟩
  have hprog : _xopt_parse_arg ⟨opts, flags⟩ [str "prog", '-' :: c :: d :: cs] 0 =
      ⟨true, 0, [], none⟩ := by
    simp [_xopt_parse_arg, _xopt_get_size, str]
  have htok := harg [str "prog", '-' :: c :: d :: cs] 1 rfl
  cases hkf : flags.keepfirst <;> simp [xopt_parse, parseLoop, hkf, hprog, htok]

/-- C7: a short token whose cluster payload has more than one character, in
sloppy mode with the first payload character matching a table option, makes
exactly one sink invocation: the matched option with the remaining payload as
its inline value, whether or not the option requires a value
(xopt.c:178-195); over the vector `["prog", token]` the parse succeeds with
that single sink call and no extras. -/
theorem sloppy_inline_value (opts : List xoptOption) (flags : XoptFlags)
    (c : Char) (rest : List Char) (o : xoptOption) (argv : List (List Char)) (i : Nat)
    (hsl : flags.sloppyshorts = true) (hkf : flags.keepfirst = false)
    (hc : c ≠ '-') (hr : rest ≠ []) (ho : _xopt_get_arg c opts = some o)
    (hi : argv.getD i [] = '-' :: c :: rest) :
    _xopt_parse_arg ⟨opts, flags⟩ argv i = ⟨false, i, [(o, some rest)], none⟩ ∧
      xopt_parse ⟨opts, flags⟩ [str "prog", '-' :: c :: rest] =
        ⟨0, some [], none, [(o, some rest)]⟩ := by
  have harg : ∀ (argv' : List (List Char)) (j : Nat),
      argv'.getD j [] = '-' :: c :: rest →
      _xopt_parse_arg ⟨opts, flags⟩ argv' j = ⟨false, j, [(o, some rest)], none⟩ := by
    intro argv' j hj
    simp only [List.getD_eq_getElem?_getD] at hj
    simp [_xopt_parse_arg, _xopt_get_size, _xopt_set, hj, hc, hsl, ho,
      List.length_pos, hr]
  refine ⟨harg argv i hi, ?_⟩
  have htok := harg [str "prog", '-' :: c :: rest] 1 rfl
  simp [xopt_parse, parseLoop, hkf, htok]

/-- C10: a token with two leading dashes is consumed with no effect — the
empty `case 2` at xopt.c:232-233 invokes no sink, sets no error, and returns
`isExtra` false — yet because it is classified as an option token, with
posix-strict-ordering set and an extra already collected it draws the
"options cannot be specified after arguments" error (xopt.c:124-128). -/
theorem double_dash_inert (ctx : xoptContext) (argv : List (List Char)) (i : Nat)
    (rest : List Char) (opts : List xoptOption) (p : List Char)
    (hi : argv.getD i [] = '-' :: '-' :: rest) (hp : _xopt_get_size p = 0) :
    _xopt_parse_arg ctx argv i = ⟨false, i, [], none⟩ ∧
      xopt_parse ⟨opts, { posixmeharder := true }⟩ [str "prog", p, '-' :: '-' :: rest] =
        ⟨0, none, some (.afterPositional ('-' :: '-' :: rest)), []⟩ := by
  have harg : ∀ (ctx' : xoptContext) (argv' : List (List Char)) (j : Nat),
      argv'.getD j [] = '-' :: '-' :: rest →
      _xopt_parse_arg ctx' argv' j = ⟨false, j, [], none⟩ := by
    intro ctx' argv' j hj
    simp only [List.getD_eq_getElem?_getD] at hj
    simp [_xopt_parse_arg, _xopt_get_size, hj]
  refine ⟨harg ctx argv i hi, ?_⟩
  have hptok : _xopt_parse_arg ⟨opts, { posixmeharder := true }⟩
      [str "prog", p, '-' :: '-' :: rest] 1 = ⟨true, 1, [], none⟩ := by
    simp [_xopt_parse_arg, hp]
  have htok := harg ⟨opts, { posixmeharder := true }⟩
    [str "prog", p, '-' :: '-' :: rest] 2 rfl
  simp [xopt_parse, parseLoop, hptok, htok]

end XOpt

namespace XOpt

/-- Witness instantiating `posix_ordering_after_positional` at the concrete
table `[⟨x, flag⟩]`. -/
theorem posix_ordering_after_positional_witness :
    _xopt_get_arg 'x' [⟨'x', false⟩] = some ⟨'x', false⟩ ∧
      (⟨'x', false⟩ : xoptOption).requiresArg = false ∧
      (xopt_parse ⟨[⟨'x', false⟩], { posixmeharder := true }⟩
            [str "prog", str "file1", str "-x"] =
          ⟨0, none, some (.afterPositional (str "-x")), [(⟨'x', false⟩, none)]⟩ ∧
        xopt_parse ⟨[⟨'x', false⟩], {}⟩ [str "prog", str "file1", str "-x"] =
          ⟨1, some [str "file1"], none, [(⟨'x', false⟩, none)]⟩) :=
  ⟨by decide, by decide,
    posix_ordering_after_positional [⟨'x', false⟩] ⟨'x', false⟩ (by decide) (by decide)⟩

/-- Witness instantiating `nocondense_rejects_cluster` at the token `-ab`
with an empty table. -/
theorem nocondense_rejects_cluster_witness :
    ({ nocondense := true } : XoptFlags).nocondense = true ∧
      ({ nocondense := true } : XoptFlags).sloppyshorts = false ∧
      'a' ≠ '-' ∧
      [['-', 'a', 'b']].getD 0 [] = '-' :: 'a' :: 'b' :: [] ∧
      (_xopt_parse_arg ⟨[], { nocondense := true }⟩ [['-', 'a', 'b']] 0 =
          ⟨false, 0, [], some (.shortCombined ('-' :: 'a' :: 'b' :: []))⟩ ∧
        xopt_parse ⟨[], { nocondense := true }⟩ [str "prog", '-' :: 'a' :: 'b' :: []] =
          ⟨0, none, some (.shortCombined ('-' :: 'a' :: 'b' :: [])), []⟩) :=
  ⟨by decide, by decide, by decide, by decide,
    nocondense_rejects_cluster [] { nocondense := true } 'a' 'b' []
      [['-', 'a', 'b']] 0 (by decide) (by decide) (by decide) (by decide)⟩

/-- Witness instantiating `sloppy_inline_value` at the token `-v1` and a
table whose option `v` requires a value. -/
theorem sloppy_inline_value_witness :
    ({ sloppyshorts := true } : XoptFlags).sloppyshorts = true ∧
      ({ sloppyshorts := true } : XoptFlags).keepfirst = false ∧
      'v' ≠ '-' ∧
      (['1'] : List Char) ≠ [] ∧
      _xopt_get_arg 'v' [⟨'v', true⟩] = some ⟨'v', true⟩ ∧
      [['-', 'v', '1']].getD 0 [] = '-' :: 'v' :: ['1'] ∧
      (_xopt_parse_arg ⟨[⟨'v', true⟩], { sloppyshorts := true }⟩ [['-', 'v', '1']] 0 =
          ⟨false, 0, [(⟨'v', true⟩, some ['1'])], none⟩ ∧
        xopt_parse ⟨[⟨'v', true⟩], { sloppyshorts := true }⟩
            [str "prog", '-' :: 'v' :: ['1']] =
          ⟨0, some [], none, [(⟨'v', true⟩, some ['1'])]⟩) :=
  ⟨by decide, by decide, by decide, by decide, by decide, by decide,
    sloppy_inline_value [⟨'v', true⟩] { sloppyshorts := true } 'v' ['1'] ⟨'v', true⟩
      [['-', 'v', '1']] 0 (by decide) (by decide) (by decide) (by decide)
      (by decide) (by decide)⟩

/-- Witness instantiating `double_dash_inert` at the bare `--` token and the
positional token `f`. -/
theorem double_dash_inert_witness :
    [['-', '-']].getD 0 [] = '-' :: '-' :: [] ∧
      _xopt_get_size ['f'] = 0 ∧
      (_xopt_parse_arg ⟨[], {}⟩ [['-', '-']] 0 = ⟨false, 0, [], none⟩ ∧
        xopt_parse ⟨[], { posixmeharder := true }⟩
            [str "prog", ['f'], '-' :: '-' :: []] =
          ⟨0, none, some (.afterPositional ('-' :: '-' :: [])), []⟩) :=
  ⟨by decide, by decide,
    double_dash_inert ⟨[], {}⟩ [['-', '-']] 0 [] [] ['f'] (by decide) (by decide)⟩

end XOpt
